import Mathlib

/-!
Shallow embedding of the schema-to-DDL translation core of the fastfood
service (src/services/crud.rs), together with theorems checking the
natural-language specification against it.

The embedding follows the Rust source:
  * `DataType`, `ColumnSchema`, `TableSchema` mirror the serde data model;
  * `DataType.display` and `ColumnSchema.display` mirror the two
    `impl Display` blocks (the column formatter calls Rust's
    `to_uppercase`, modelled here by the structural `to_uppercase`);
  * `CrudService` holds the three injected system columns built by
    `CrudService::new`;
  * `CrudService.create_table` / `CrudService.drop_table` mirror the two
    service methods.  Database effects are made explicit: an engine is a
    function `Exec σ` from a statement and a database state to either a
    new state or the engine's native error text (a failing statement
    leaves the state unchanged, SQLite's statement-level rollback);
    `transaction` models diesel's `Connection::transaction` over SQLite's
    transactional DDL (commit keeps the closure's final state, any error
    rolls back to the pre-transaction state); the r2d2 pool handle is an
    `Except String Unit` (`.error` = the pool could not supply a
    connection), and a `none` result models the panic produced by the
    source's `.expect(...)` on pool failure.
-/

namespace Fastfood

/-- The closed set of column data types (enum `DataType` in crud.rs). -/
inductive DataType where
  | Text
  | Integer
  | Float
  | Boolean
  | TimeStamp
deriving DecidableEq

/-- The `impl Display for DataType` mapping (crud.rs lines 20-30). -/
def DataType.display : DataType → String
  | .Text => "TEXT"
  | .Integer => "INTEGER"
  | .Float => "REAL"
  | .Boolean => "BOOLEAN"
  | .TimeStamp => "TIMESTAMP"

/-- One column definition (struct `ColumnSchema` in crud.rs). -/
structure ColumnSchema where
  name : String
  data_type : DataType
  primary_key : Option Bool
  auto_increment : Option Bool
  unique : Option Bool
  not_null : Option Bool
  default : Option String
deriving DecidableEq

/-- A table request/response (struct `TableSchema` in crud.rs). -/
structure TableSchema where
  name : String
  columns : List ColumnSchema
deriving DecidableEq

/-- Rust's `str::to_uppercase`, restricted to the ASCII strings this
program applies it to; written as a structural map so that it computes. -/
def to_uppercase (s : String) : String := ⟨s.data.map Char.toUpper⟩

/-- The `impl Display for ColumnSchema` formatter (crud.rs lines 50-66):
`<name> <TYPE>` followed by the optional clauses, each emitted only when
its flag is true (`unwrap_or(false)`) or the default is present. -/
def ColumnSchema.display (c : ColumnSchema) : String :=
  c.name ++ " " ++ to_uppercase c.data_type.display
    ++ (if c.primary_key.getD false then " PRIMARY KEY" else "")
    ++ (if c.auto_increment.getD false then " AUTOINCREMENT" else "")
    ++ (if c.unique.getD false then " UNIQUE" else "")
    ++ (if c.not_null.getD false then " NOT NULL" else "")
    ++ (match c.default with
        | some d => " DEFAULT " ++ d
        | none => "")

/-- The provisioner's immutable state: the three injected system-column
definitions (struct `CrudService`, minus the pool handle which the
embedding passes explicitly). -/
structure CrudService where
  id_col : ColumnSchema
  created_at_col : ColumnSchema
  updated_at_col : ColumnSchema
deriving DecidableEq

/-- `CrudService::new` (crud.rs lines 81-112): the fixed injected
column definitions, identical for every table. -/
def CrudService.new : CrudService :=
  ⟨⟨"id", .Integer, some true, some true, some true, some true, none⟩,
   ⟨"created_at", .TimeStamp, some false, some false, some false, some true,
      some "CURRENT_TIMESTAMP"⟩,
   ⟨"updated_at", .TimeStamp, some false, some false, some false, some true,
      some "CURRENT_TIMESTAMP"⟩⟩

/-- The engine's native error text for a rejected statement
(`diesel::result::Error` carried by `Error::DieselError`). -/
abbrev DieselErr := String

/-- The service error enum (crud.rs lines 75-78). -/
inductive Error where
  | DieselError (e : DieselErr)
  | PoolError (e : String)
deriving DecidableEq

/-- A database engine: executes one SQL statement against a state, giving
either the new state or the engine's native error text.  A failing
statement leaves the state unchanged (statement-level rollback). -/
abbrev Exec (σ : Type) := String → σ → Except DieselErr σ

/-- diesel's `Connection::transaction` over an engine with transactional
DDL (SQLite): run the closure; on success commit its final state, on any
error roll the state back to the pre-transaction state and report the
error. -/
def transaction {σ : Type} (f : σ → Except DieselErr σ) (s : σ) :
    Except DieselErr Unit × σ :=
  match f s with
  | .ok s2 => (.ok (), s2)
  | .error e => (.error e, s)

/-- The `query_columns` string built in `create_table` (crud.rs lines
121-128): the id-column fragment, then `, ` plus each user column
fragment via the for-loop, then `, ` plus the created_at and updated_at
fragments. -/
def CrudService.query_columns (svc : CrudService)
    (columns : List ColumnSchema) : String :=
  (columns.foldl (fun acc c => acc ++ ", " ++ c.display) svc.id_col.display)
    ++ (", " ++ svc.created_at_col.display)
    ++ (", " ++ svc.updated_at_col.display)

/-- The `create_query` string (crud.rs line 130). -/
def CrudService.create_query (svc : CrudService) (table_name : String)
    (columns : List ColumnSchema) : String :=
  "CREATE TABLE " ++ table_name ++ " (" ++ svc.query_columns columns ++ ")"

/-- The `trigger_query` string (crud.rs lines 137-142), whitespace exactly
as in the Rust format literal. -/
def trigger_query (table_name : String) : String :=
  "CREATE TRIGGER update_" ++ table_name
    ++ "_updated_at\n                AFTER UPDATE ON " ++ table_name
    ++ "\n                FOR EACH ROW\n                BEGIN\n                    UPDATE "
    ++ table_name
    ++ " SET updated_at = CURRENT_TIMESTAMP WHERE id = OLD.id;\n                END;"

/-- `CrudService::create_table` (crud.rs lines 114-165).  `pool_get`
models `self.pool.get()`; a pool failure hits the source's
`.expect(...)` and panics, modelled as `none`.  Otherwise the CREATE
TABLE and CREATE TRIGGER statements run inside one `transaction`; on
success the enriched schema is returned, on error the diesel error is
wrapped in `Error.DieselError`. -/
def CrudService.create_table {σ : Type} (svc : CrudService)
    (pool_get : Except String Unit) (exec : Exec σ) (schema : TableSchema)
    (s : σ) : Option (Except Error TableSchema × σ) :=
  match pool_get with
  | .error _ => none
  | .ok _ =>
    match transaction (fun conn => do
        let conn ← exec (svc.create_query schema.name schema.columns) conn
        exec (trigger_query schema.name) conn) s with
    | (.ok _, s2) =>
        some (.ok ⟨schema.name,
          svc.id_col :: schema.columns
            ++ [svc.created_at_col, svc.updated_at_col]⟩, s2)
    | (.error e, s2) => some (.error (.DieselError e), s2)

/-- `CrudService::drop_table` (crud.rs lines 167-181): a single `DROP
TABLE <name>` statement executed directly on the connection, outside any
transaction; pool failure panics (`none`) exactly as in `create_table`. -/
def CrudService.drop_table {σ : Type} (_svc : CrudService)
    (pool_get : Except String Unit) (exec : Exec σ) (table_name : String)
    (s : σ) : Option (Except Error Unit × σ) :=
  match pool_get with
  | .error _ => none
  | .ok _ =>
    match exec ("DROP TABLE " ++ table_name) s with
    | .ok s2 => some (.ok (), s2)
    | .error e => some (.error (.DieselError e), s)

/-- The tracing engine: every statement succeeds and is appended to the
trace, so the final state lists exactly the statements executed, in
order. -/
def execTrace : Exec (List String) := fun q s => .ok (s ++ [q])

/-! Specification-side definitions, written from the words of the spec
and compared against the source-side definitions above. -/

/-- Specification-side type mapping (spec §4.1): Text→TEXT,
Integer→INTEGER, Float→REAL, Boolean→BOOLEAN, Timestamp→TIMESTAMP. -/
def engineTypeName : DataType → String
  | .Text => "TEXT"
  | .Integer => "INTEGER"
  | .Float => "REAL"
  | .Boolean => "BOOLEAN"
  | .TimeStamp => "TIMESTAMP"

/-- Specification-side column fragment (spec §4.1): renders as
`<name> <TYPE>[ PRIMARY KEY][ AUTOINCREMENT][ UNIQUE][ NOT NULL][ DEFAULT <default>]`,
each clause emitted only when the corresponding flag is true/present, in
that fixed clause order, an absent flag behaving as false. -/
def renderColumnSpec (c : ColumnSchema) : String :=
  c.name ++ " " ++ engineTypeName c.data_type
    ++ (if c.primary_key.getD false then " PRIMARY KEY" else "")
    ++ (if c.auto_increment.getD false then " AUTOINCREMENT" else "")
    ++ (if c.unique.getD false then " UNIQUE" else "")
    ++ (if c.not_null.getD false then " NOT NULL" else "")
    ++ (match c.default with
        | some d => " DEFAULT " ++ d
        | none => "")

/-- Specification-side joining of a fragment list with `, ` (spec §4.2
algorithm step 1). -/
def joinCommaSpec : List String → String
  | [] => ""
  | [x] => x
  | x :: y :: rest => x ++ ", " ++ joinCommaSpec (y :: rest)

/-- Specification-side full fragment list (spec §4.2 step 1): id-column
fragment, then each user column fragment in request order, then
created_at, then updated_at fragments. -/
def fullColumnFragments (svc : CrudService)
    (columns : List ColumnSchema) : List String :=
  svc.id_col.display :: columns.map ColumnSchema.display
    ++ [svc.created_at_col.display, svc.updated_at_col.display]

/-- Specification-side trigger name (spec §6): `update_<table_name>_updated_at`. -/
def triggerNameSpec (table_name : String) : String :=
  "update_" ++ table_name ++ "_updated_at"

/-- Specification-side trigger statement (spec §4.2 step 3): a trigger
with the deterministic name `update_<name>_updated_at` that fires AFTER
UPDATE on the table, FOR EACH ROW, and sets the affected row's
updated_at to the engine's current-timestamp expression keyed by the
row's id; layout (newlines and indentation) as in the synthesized
statement. -/
def triggerStmtSpec (table_name : String) : String :=
  "CREATE TRIGGER " ++ triggerNameSpec table_name
    ++ "\n                " ++ "AFTER UPDATE ON " ++ table_name
    ++ "\n                " ++ "FOR EACH ROW"
    ++ "\n                " ++ "BEGIN"
    ++ "\n                    " ++ "UPDATE " ++ table_name
    ++ " SET updated_at = CURRENT_TIMESTAMP WHERE id = OLD.id;"
    ++ "\n                " ++ "END;"

/-! Helper lemmas. -/

/-- Uppercasing the engine type names is the identity: the display
strings are already upper-case ASCII. -/
theorem to_uppercase_display (dt : DataType) :
    to_uppercase dt.display = dt.display := by
  cases dt <;> rfl

/-- The source-side type mapping agrees with the specification-side
table. -/
theorem display_eq_engineTypeName (dt : DataType) :
    dt.display = engineTypeName dt := by
  cases dt <;> rfl

/-- Uppercasing TEXT is the identity. -/
theorem to_uppercase_text : to_uppercase "TEXT" = "TEXT" := rfl

/-- Uppercasing INTEGER is the identity. -/
theorem to_uppercase_integer : to_uppercase "INTEGER" = "INTEGER" := rfl

/-- Uppercasing REAL is the identity. -/
theorem to_uppercase_real : to_uppercase "REAL" = "REAL" := rfl

/-- Uppercasing BOOLEAN is the identity. -/
theorem to_uppercase_boolean : to_uppercase "BOOLEAN" = "BOOLEAN" := rfl

/-- Uppercasing TIMESTAMP is the identity. -/
theorem to_uppercase_timestamp : to_uppercase "TIMESTAMP" = "TIMESTAMP" := rfl

/-- On error, `transaction` rolls the state back to the initial state. -/
theorem transaction_error {σ : Type} (f : σ → Except DieselErr σ) (s : σ)
    (e : DieselErr) (s2 : σ) (h : transaction f s = (.error e, s2)) :
    s2 = s := by
  unfold transaction at h
  split at h <;> simp_all

/-- Joining with a compound head merges with the head of the tail. -/
theorem joinCommaSpec_append_head (x y : String) (l : List String) :
    joinCommaSpec ((x ++ ", " ++ y) :: l)
      = x ++ ", " ++ joinCommaSpec (y :: l) := by
  cases l with
  | nil => rfl
  | cons w ws => simp [joinCommaSpec, String.append_assoc]

/-- The fold that builds `query_columns` computes the `, `-join of the
seed and the column fragments followed by two trailing fragments. -/
theorem foldl_display_join (columns : List ColumnSchema) (a u v : String) :
    (columns.foldl (fun acc c => acc ++ ", " ++ c.display) a)
        ++ (", " ++ u) ++ (", " ++ v)
      = joinCommaSpec (a :: columns.map ColumnSchema.display ++ [u, v]) := by
  induction columns generalizing a with
  | nil => simp [joinCommaSpec, String.append_assoc]
  | cons c cs ih =>
      have h1 := ih (a ++ ", " ++ c.display)
      have h2 := joinCommaSpec_append_head a c.display
        (cs.map ColumnSchema.display ++ [u, v])
      simp only [List.foldl_cons, List.map_cons, List.cons_append] at h1 h2 ⊢
      rw [h1, h2]
      rfl

/-- `query_columns` is the `, `-join of the specification-side fragment
list. -/
theorem query_columns_eq_join (svc : CrudService)
    (columns : List ColumnSchema) :
    svc.query_columns columns = joinCommaSpec (fullColumnFragments svc columns) := by
  unfold CrudService.query_columns fullColumnFragments
  rw [foldl_display_join]

/-- Whether an `Error` is the engine-execution variant. -/
def Error.isDieselError : Error → Bool
  | .DieselError _ => true
  | .PoolError _ => false

/-- An engine on which every statement fails with a fixed engine error
text. -/
def execBoom (σ : Type) : Exec σ := fun _ _ => .error "duplicate table"

/-- The concrete scenario of spec §8: table `people` with one user
column `age` (Integer, notNull, other flags absent). -/
def sch0 : TableSchema :=
  ⟨"people", [⟨"age", .Integer, none, none, none, some true, none⟩]⟩

/-- The schema `create_table` returns for `sch0`. -/
def outPeople : TableSchema :=
  ⟨"people", CrudService.new.id_col :: sch0.columns
    ++ [CrudService.new.created_at_col, CrudService.new.updated_at_col]⟩

/-- The statements `create_table` executes for `sch0`, in order. -/
def tracePeople : List String :=
  [CrudService.new.create_query "people" sch0.columns, trigger_query "people"]

/-- A user column that collides with the injected id column's name. -/
def cid : ColumnSchema := ⟨"id", .Integer, none, none, none, none, none⟩

/-- Unfolding `create_table` when the pool supplies a connection. -/
theorem create_table_ok_eq {σ : Type} (svc : CrudService) (exec : Exec σ)
    (schema : TableSchema) (s : σ) :
    svc.create_table (.ok ()) exec schema s
      = match transaction (fun conn => do
            let conn ← exec (svc.create_query schema.name schema.columns) conn
            exec (trigger_query schema.name) conn) s with
        | (.ok _, s2) =>
            some (.ok ⟨schema.name, svc.id_col :: schema.columns
              ++ [svc.created_at_col, svc.updated_at_col]⟩, s2)
        | (.error e, s2) => some (.error (.DieselError e), s2) := rfl

/-- Unfolding `drop_table` when the pool supplies a connection. -/
theorem drop_table_ok_eq {σ : Type} (svc : CrudService) (exec : Exec σ)
    (table_name : String) (s : σ) :
    svc.drop_table (.ok ()) exec table_name s
      = match exec ("DROP TABLE " ++ table_name) s with
        | .ok s2 => some (.ok (), s2)
        | .error e => some (.error (.DieselError e), s) := rfl

/-- A successful `create_table` run on the tracing engine: it executes
exactly the CREATE TABLE statement followed by the CREATE TRIGGER
statement, in one transaction, and returns the enriched schema. -/
theorem create_table_trace (schema : TableSchema) (l : List String) :
    CrudService.new.create_table (.ok ()) execTrace schema l
      = some (.ok ⟨schema.name, CrudService.new.id_col :: schema.columns
            ++ [CrudService.new.created_at_col, CrudService.new.updated_at_col]⟩,
          l ++ [CrudService.new.create_query schema.name schema.columns,
                trigger_query schema.name]) := by
  have h : CrudService.new.create_table (.ok ()) execTrace schema l
      = some (.ok ⟨schema.name, CrudService.new.id_col :: schema.columns
            ++ [CrudService.new.created_at_col, CrudService.new.updated_at_col]⟩,
          (l ++ [CrudService.new.create_query schema.name schema.columns])
            ++ [trigger_query schema.name]) := rfl
  rw [h, List.append_assoc]
  rfl

/-- The synthesized trigger statement coincides with the
specification-side trigger statement. -/
theorem trigger_query_eq_spec (table_name : String) :
    trigger_query table_name = triggerStmtSpec table_name := by
  simp only [trigger_query, triggerStmtSpec, triggerNameSpec, String.append_assoc]
  rfl

/-! Claim theorems. -/

/-- Claim C3: the column-definition fragment emits each clause only when
the corresponding flag is true/present, in the fixed order name, type,
PRIMARY KEY, AUTOINCREMENT, UNIQUE, NOT NULL, DEFAULT (the rendering
refines the specification-side fragment); a column with all flags true
and a default renders as
`<name> <TYPE> PRIMARY KEY AUTOINCREMENT UNIQUE NOT NULL DEFAULT <default>`;
an absent (None) flag behaves exactly as false. -/
theorem C3_clause_order :
    (∀ (c : ColumnSchema), c.display = renderColumnSpec c)
    ∧ (∀ (n : String) (dt : DataType) (d : String),
        ColumnSchema.display ⟨n, dt, some true, some true, some true, some true, some d⟩
          = n ++ " " ++ engineTypeName dt
              ++ " PRIMARY KEY AUTOINCREMENT UNIQUE NOT NULL DEFAULT " ++ d)
    ∧ (∀ (c : ColumnSchema),
        c.display = ColumnSchema.display
          ⟨c.name, c.data_type, some (c.primary_key.getD false),
           some (c.auto_increment.getD false), some (c.unique.getD false),
           some (c.not_null.getD false), c.default⟩) := by
  refine ⟨fun c => ?_, fun n dt d => ?_, fun c => ?_⟩
  · unfold ColumnSchema.display renderColumnSpec
    rw [to_uppercase_display, display_eq_engineTypeName]
  · cases dt <;>
      simp only [ColumnSchema.display, DataType.display, engineTypeName,
        to_uppercase_text, to_uppercase_integer, to_uppercase_real,
        to_uppercase_boolean, to_uppercase_timestamp, Option.getD_some,
        if_true, String.append_assoc] <;> rfl
  · simp [ColumnSchema.display]

/-- Claim C4: the type-name mapping is total and one-to-one
(Text→TEXT, Integer→INTEGER, Float→REAL, Boolean→BOOLEAN,
Timestamp→TIMESTAMP), and a minimal column (all flags absent, no
default) renders as exactly `<name> <ENGINE_TYPE>` with no trailing
clauses. -/
theorem C4_type_mapping :
    (DataType.display .Text = "TEXT" ∧ DataType.display .Integer = "INTEGER"
      ∧ DataType.display .Float = "REAL" ∧ DataType.display .Boolean = "BOOLEAN"
      ∧ DataType.display .TimeStamp = "TIMESTAMP")
    ∧ (∀ (a b : DataType), a.display = b.display → a = b)
    ∧ (∀ (n : String) (dt : DataType),
        ColumnSchema.display ⟨n, dt, none, none, none, none, none⟩
          = n ++ " " ++ engineTypeName dt) := by
  refine ⟨⟨rfl, rfl, rfl, rfl, rfl⟩, fun a b h => ?_, fun n dt => ?_⟩
  · cases a <;> cases b <;> first
      | rfl
      | exact absurd h (by decide)
  · cases dt <;>
      simp only [ColumnSchema.display, DataType.display, engineTypeName,
        to_uppercase_text, to_uppercase_integer, to_uppercase_real,
        to_uppercase_boolean, to_uppercase_timestamp, Option.getD_none,
        if_false, String.append_assoc] <;> rfl

/-- Claim C4 witness: the injectivity hypothesis discharged at a
concrete pair of data types. -/
theorem C4_type_mapping_witness :
    DataType.display .Integer = DataType.display .Integer
      ∧ DataType.Integer = DataType.Integer :=
  ⟨rfl, C4_type_mapping.2.1 .Integer .Integer rfl⟩

/-- Claim C6: the synthesized table-creation statement equals
`CREATE TABLE <name> (<column-list>)`, where the column list is the
id-column fragment, each user column fragment in request order, then the
created_at and updated_at fragments, joined with `, `. -/
theorem C6_create_statement :
    ∀ (table_name : String) (columns : List ColumnSchema),
      CrudService.new.create_query table_name columns
        = "CREATE TABLE " ++ table_name ++ " ("
            ++ joinCommaSpec (fullColumnFragments CrudService.new columns) ++ ")" := by
  intro table_name columns
  unfold CrudService.create_query
  rw [query_columns_eq_join]

/-- Claim C1: a successful CreateTable returns a TableSpec whose column
sequence is exactly id, then the user columns in request order, then
created_at and updated_at (length n+3), where the injected id column is
Integer with primaryKey, autoIncrement, unique and notNull set and no
default, and created_at/updated_at are Timestamp, notNull, with default
CURRENT_TIMESTAMP — the injected definitions being the fixed fields of
`CrudService.new`, identical for every table. -/
theorem C1_column_order :
    ∀ (σ : Type) (exec : Exec σ) (schema : TableSchema) (s : σ)
      (out : TableSchema) (s2 : σ),
      CrudService.new.create_table (.ok ()) exec schema s = some (.ok out, s2) →
        out.columns = CrudService.new.id_col :: schema.columns
            ++ [CrudService.new.created_at_col, CrudService.new.updated_at_col]
        ∧ out.columns.length = schema.columns.length + 3
        ∧ CrudService.new.id_col
            = ⟨"id", .Integer, some true, some true, some true, some true, none⟩
        ∧ CrudService.new.created_at_col
            = ⟨"created_at", .TimeStamp, some false, some false, some false,
               some true, some "CURRENT_TIMESTAMP"⟩
        ∧ CrudService.new.updated_at_col
            = ⟨"updated_at", .TimeStamp, some false, some false, some false,
               some true, some "CURRENT_TIMESTAMP"⟩ := by
  intro σ exec schema s out s2 h
  rw [create_table_ok_eq] at h
  split at h
  · simp only [Option.some.injEq, Prod.mk.injEq, Except.ok.injEq] at h
    obtain ⟨hout, -⟩ := h
    subst hout
    refine ⟨rfl, ?_, rfl, rfl, rfl⟩
    simp [List.length_append]
  · simp at h

/-- Claim C1 witness: the spec §8 scenario (table `people`, one user
column `age`) run on the tracing engine. -/
theorem C1_column_order_witness :
    (CrudService.new.create_table (.ok ()) execTrace sch0 []
        = some (.ok outPeople, tracePeople))
    ∧ (outPeople.columns = CrudService.new.id_col :: sch0.columns
          ++ [CrudService.new.created_at_col, CrudService.new.updated_at_col]
       ∧ outPeople.columns.length = sch0.columns.length + 3
       ∧ CrudService.new.id_col
           = ⟨"id", .Integer, some true, some true, some true, some true, none⟩
       ∧ CrudService.new.created_at_col
           = ⟨"created_at", .TimeStamp, some false, some false, some false,
              some true, some "CURRENT_TIMESTAMP"⟩
       ∧ CrudService.new.updated_at_col
           = ⟨"updated_at", .TimeStamp, some false, some false, some false,
              some true, some "CURRENT_TIMESTAMP"⟩) :=
  ⟨rfl, C1_column_order (List String) execTrace sch0 [] outPeople tracePeople rfl⟩

/-- Claim C2: the CREATE TABLE and CREATE TRIGGER statements run as one
atomic transaction, CREATE TABLE first; on any execution failure no
schema is returned, the single reported error is the classified engine
error, and the database state is exactly the pre-call state (so if
trigger creation fails the table does not exist afterward). -/
theorem C2_transactional_atomicity :
    (∀ (σ : Type) (exec : Exec σ) (schema : TableSchema) (s : σ)
        (e : Error) (s2 : σ),
        CrudService.new.create_table (.ok ()) exec schema s
            = some (.error e, s2) →
          s2 = s ∧ e.isDieselError = true)
    ∧ (∀ (schema : TableSchema) (l : List String),
        CrudService.new.create_table (.ok ()) execTrace schema l
          = some (.ok ⟨schema.name, CrudService.new.id_col :: schema.columns
                ++ [CrudService.new.created_at_col, CrudService.new.updated_at_col]⟩,
              l ++ [CrudService.new.create_query schema.name schema.columns,
                    trigger_query schema.name])) := by
  constructor
  · intro σ exec schema s e s2 h
    rw [create_table_ok_eq] at h
    split at h
    · simp at h
    · rename_i e0 s3 heq
      simp only [Option.some.injEq, Prod.mk.injEq, Except.error.injEq] at h
      obtain ⟨he, hs⟩ := h
      subst hs
      exact ⟨transaction_error _ _ _ _ heq, by rw [← he]; rfl⟩
  · exact create_table_trace

/-- Claim C2 witness: a failing engine at a concrete state, showing the
rolled-back state and the classified error. -/
theorem C2_transactional_atomicity_witness :
    (CrudService.new.create_table (.ok ()) (execBoom Nat) sch0 7
        = some (.error (Error.DieselError "duplicate table"), 7))
    ∧ ((7 : Nat) = 7 ∧ (Error.DieselError "duplicate table").isDieselError = true) :=
  ⟨rfl, C2_transactional_atomicity.1 Nat (execBoom Nat) sch0 7
    (Error.DieselError "duplicate table") 7 rfl⟩

/-- Claim C5 (behavior at the failing input): when the pool cannot
supply a connection, both create_table and drop_table hit the source's
`.expect(...)` and panic instead of returning the resource-acquisition
error the spec requires. -/
theorem C5_pool_failure_panics :
    (CrudService.new.create_table (Except.error "pool timed out") execTrace sch0 []
        = none)
    ∧ (CrudService.new.drop_table (Except.error "pool timed out") execTrace
        "people" [] = none) :=
  ⟨rfl, rfl⟩

/-- Claim C7: the trigger synthesized by CreateTable is named exactly
`update_<table_name>_updated_at`, fires AFTER UPDATE on the table FOR
EACH ROW, and sets updated_at to CURRENT_TIMESTAMP for the affected row
keyed by the row's id (the synthesized statement equals the
specification-side trigger statement built from `triggerNameSpec`); a
successful CreateTable executes exactly one CREATE TABLE statement and
this one CREATE TRIGGER statement. -/
theorem C7_update_trigger :
    (∀ (table_name : String),
        trigger_query table_name = triggerStmtSpec table_name)
    ∧ (∀ (schema : TableSchema),
        CrudService.new.create_table (.ok ()) execTrace schema []
          = some (.ok ⟨schema.name, CrudService.new.id_col :: schema.columns
                ++ [CrudService.new.created_at_col, CrudService.new.updated_at_col]⟩,
              [CrudService.new.create_query schema.name schema.columns,
               triggerStmtSpec schema.name])) := by
  refine ⟨trigger_query_eq_spec, fun schema => ?_⟩
  rw [← trigger_query_eq_spec]
  have h := create_table_trace schema []
  rw [List.nil_append] at h
  exact h

/-- Claim C8: DropTable synthesizes exactly `DROP TABLE <name>` and
executes it as a single statement outside any transaction (the trace
gains exactly that one statement; no trigger drop, no retry); on
failure it returns the classified engine error and the state — hence
the table — is unchanged. -/
theorem C8_drop_table :
    (∀ (table_name : String) (l : List String),
        CrudService.new.drop_table (.ok ()) execTrace table_name l
          = some (.ok (), l ++ ["DROP TABLE " ++ table_name]))
    ∧ (∀ (σ : Type) (exec : Exec σ) (table_name : String) (s : σ)
        (e : Error) (s2 : σ),
        CrudService.new.drop_table (.ok ()) exec table_name s
            = some (.error e, s2) →
          s2 = s ∧ e.isDieselError = true) := by
  refine ⟨fun table_name l => rfl, ?_⟩
  intro σ exec table_name s e s2 h
  rw [drop_table_ok_eq] at h
  split at h
  · simp at h
  · simp only [Option.some.injEq, Prod.mk.injEq, Except.error.injEq] at h
    obtain ⟨he, hs⟩ := h
    subst hs
    exact ⟨rfl, by rw [← he]; rfl⟩

/-- Claim C8 witness: a failing engine at a concrete state. -/
theorem C8_drop_table_witness :
    (CrudService.new.drop_table (.ok ()) (execBoom Nat) "people" 7
        = some (.error (Error.DieselError "duplicate table"), 7))
    ∧ ((7 : Nat) = 7 ∧ (Error.DieselError "duplicate table").isDieselError = true) :=
  ⟨rfl, C8_drop_table.2 Nat (execBoom Nat) "people" 7
    (Error.DieselError "duplicate table") 7 rfl⟩

/-- Claim C9: create_table performs no duplicate-name check between user
columns and the injected system columns: a user column named id,
created_at or updated_at has its fragment interpolated into the column
list alongside the injected fragments, and on an engine that accepts
the statements the call simply succeeds (the collision could only
surface as an engine-level execution error, which create_table reports
as the DieselError classification — see C2/C10). -/
theorem C9_no_reserved_name_check :
    ∀ (table_name : String) (columns : List ColumnSchema) (c : ColumnSchema),
      c ∈ columns →
      (c.name = "id" ∨ c.name = "created_at" ∨ c.name = "updated_at") →
        c.display ∈ fullColumnFragments CrudService.new columns
        ∧ CrudService.new.id_col.display ∈ fullColumnFragments CrudService.new columns
        ∧ CrudService.new.create_query table_name columns
            = "CREATE TABLE " ++ table_name ++ " ("
                ++ joinCommaSpec (fullColumnFragments CrudService.new columns) ++ ")"
        ∧ CrudService.new.create_table (.ok ()) execTrace ⟨table_name, columns⟩ []
            = some (.ok ⟨table_name, CrudService.new.id_col :: columns
                  ++ [CrudService.new.created_at_col, CrudService.new.updated_at_col]⟩,
                [CrudService.new.create_query table_name columns,
                 trigger_query table_name]) := by
  intro table_name columns c hmem _hname
  refine ⟨?_, ?_, ?_, ?_⟩
  · exact List.mem_cons_of_mem _ (List.mem_append_left _ (List.mem_map_of_mem _ hmem))
  · exact List.mem_cons_self _ _
  · unfold CrudService.create_query
    rw [query_columns_eq_join]
  · have h := create_table_trace ⟨table_name, columns⟩ []
    rw [List.nil_append] at h
    exact h

/-- Claim C9 witness: a table with a single user column literally named
id. -/
theorem C9_no_reserved_name_check_witness :
    (cid ∈ [cid])
    ∧ (cid.name = "id" ∨ cid.name = "created_at" ∨ cid.name = "updated_at")
    ∧ (cid.display ∈ fullColumnFragments CrudService.new [cid]
       ∧ CrudService.new.id_col.display ∈ fullColumnFragments CrudService.new [cid]
       ∧ CrudService.new.create_query "t" [cid]
           = "CREATE TABLE " ++ "t" ++ " ("
               ++ joinCommaSpec (fullColumnFragments CrudService.new [cid]) ++ ")"
       ∧ CrudService.new.create_table (.ok ()) execTrace ⟨"t", [cid]⟩ []
           = some (.ok ⟨"t", CrudService.new.id_col :: [cid]
                 ++ [CrudService.new.created_at_col, CrudService.new.updated_at_col]⟩,
               [CrudService.new.create_query "t" [cid], trigger_query "t"])) :=
  ⟨List.mem_cons_self _ _, Or.inl rfl,
   C9_no_reserved_name_check "t" [cid] cid (List.mem_cons_self _ _) (Or.inl rfl)⟩

/-- Claim C10: every error value returned by create_table or drop_table
is the DieselError variant; the PoolError variant is never constructed,
because a pool-acquisition failure panics (modelled as `none`) instead
of producing an Err result. -/
theorem C10_pool_error_never_returned :
    (∀ (σ : Type) (exec : Exec σ) (schema : TableSchema) (s : σ) (pe : String),
        CrudService.new.create_table (.error pe) exec schema s = none)
    ∧ (∀ (σ : Type) (exec : Exec σ) (table_name : String) (s : σ) (pe : String),
        CrudService.new.drop_table (.error pe) exec table_name s = none)
    ∧ (∀ (σ : Type) (exec : Exec σ) (schema : TableSchema) (s : σ)
        (e : Error) (s2 : σ),
        CrudService.new.create_table (.ok ()) exec schema s
            = some (.error e, s2) → e.isDieselError = true)
    ∧ (∀ (σ : Type) (exec : Exec σ) (table_name : String) (s : σ)
        (e : Error) (s2 : σ),
        CrudService.new.drop_table (.ok ()) exec table_name s
            = some (.error e, s2) → e.isDieselError = true) := by
  refine ⟨fun σ exec schema s pe => rfl, fun σ exec table_name s pe => rfl, ?_, ?_⟩
  · intro σ exec schema s e s2 h
    rw [create_table_ok_eq] at h
    split at h
    · simp at h
    · simp only [Option.some.injEq, Prod.mk.injEq, Except.error.injEq] at h
      rw [← h.1]
      rfl
  · intro σ exec table_name s e s2 h
    rw [drop_table_ok_eq] at h
    split at h
    · simp at h
    · simp only [Option.some.injEq, Prod.mk.injEq, Except.error.injEq] at h
      rw [← h.1]
      rfl

/-- Claim C10 witness: the error-classification hypotheses discharged on
a failing engine at concrete inputs. -/
theorem C10_pool_error_never_returned_witness :
    ((CrudService.new.create_table (.ok ()) (execBoom Nat) sch0 7
        = some (.error (Error.DieselError "duplicate table"), 7))
      ∧ (Error.DieselError "duplicate table").isDieselError = true)
    ∧ ((CrudService.new.drop_table (.ok ()) (execBoom Nat) "people" 7
        = some (.error (Error.DieselError "duplicate table"), 7))
      ∧ (Error.DieselError "duplicate table").isDieselError = true) :=
  ⟨⟨rfl, C10_pool_error_never_returned.2.2.1 Nat (execBoom Nat) sch0 7
      (Error.DieselError "duplicate table") 7 rfl⟩,
   ⟨rfl, C10_pool_error_never_returned.2.2.2 Nat (execBoom Nat) "people" 7
      (Error.DieselError "duplicate table") 7 rfl⟩⟩

end Fastfood
